import Mathlib

/-!
Verification of the query resolver in inspect_langcodes.py.

The script is a thin layer over the third-party langcodes library.  We embed
the script's own logic faithfully and model the library as an abstract
environment Env whose fallible primitives return Except (an error models a
raised exception at that call site) and whose static tables are association
lists.  Language models the langcodes Language record with the attributes the
script reads (language, script, territory, variants).
-/

namespace InspectLangcodes

/-- Model of the langcodes Language object: the fields read by the script.
A missing subtag is none; variants is the (possibly empty) variants tuple. -/
structure Language where
  language : Option String := none
  script : Option String := none
  territory : Option String := none
  variants : List String := []
deriving DecidableEq, Repr, Inhabited

/-- Exception payload (the message of a raised Python exception). -/
abbrev Err := String

/-- Abstract model of the langcodes library and its data tables.  A primitive
returning Except.error models that call raising an exception; to_tag is pure
string assembly in the real library and is modelled as total. -/
structure Env where
  toTag : Language → String
  standardize : String → Except Err String
  tagDistance : String → String → Except Err Int
  getLang : String → Except Err Language
  minimize : Language → Except Err Language
  maximize : Language → Except Err Language
  find : String → Except Err Language
  describe : Language → Except Err String
  displayName : Language → Except Err String
  tagIsValid : String → Bool
  macrolanguages : List (String × String)
  normalizedMacrolanguages : List (String × String)
  languageReplacements : List (String × String)
  languageAlpha3 : String → Except Err (Option String)
  languageAlpha3Biblio : String → Except Err (Option String)

/-- Python truthiness for str-or-None: an empty string is falsy. -/
def optNonEmpty : Option String → Option String
  | some s => if s = "" then none else some s
  | none => none

/-- Python `a or b` for a : str | None and b : str. -/
def pyOrS (a : Option String) (b : String) : String :=
  match optNonEmpty a with
  | some s => s
  | none => b

/-- str.upper() (character-wise, as both Python and Lean map each char). -/
def pyUpper (s : String) : String := String.mk (s.data.map Char.toUpper)

/-- str.lower() (character-wise, as both Python and Lean map each char). -/
def pyLower (s : String) : String := String.mk (s.data.map Char.toLower)

/-- str.strip(): drop leading and trailing whitespace. -/
def pyStrip (s : String) : String :=
  String.mk (((s.data.dropWhile Char.isWhitespace).reverse.dropWhile
    Char.isWhitespace).reverse)

/-- dict.get on an association list (first binding wins). -/
def dictGet (d : List (String × String)) (k : String) : Option String :=
  (d.find? (fun p => p.1 = k)).map (fun p => p.2)

/-- try/except around a library call: an exception becomes None. -/
def exceptToOption {α : Type} : Except Err α → Option α
  | .ok a => some a
  | .error _ => none

/-- Argument of _to_standard_tag: `Language | str`. -/
abbrev LangOrStr := Language ⊕ String

/-- The `value.to_tag() if isinstance(value, Language) else value` step. -/
def asTagStr (env : Env) : LangOrStr → String
  | .inl l => env.toTag l
  | .inr s => s

/-- Embeds _to_standard_tag: standardize_tag inside try/except, None on any
exception (source lines 22-30). -/
def toStandardTag (env : Env) (v : LangOrStr) : Option String :=
  match env.standardize (asTagStr env v) with
  | .ok t => some t
  | .error _ => none

/-- MAX_NEAR_DISTANCE from the source (line 33). -/
def MAX_NEAR_DISTANCE : Int := 1

/-- US_TERRITORY_LANG_ALLOWLIST from the source (line 34). -/
def US_TERRITORY_LANG_ALLOWLIST : List String := ["en", "es"]

/-- Embeds _is_near_identical (source lines 37-45): both tag_distance calls
sit in one try block, so a failure of either yields False; otherwise both
distances must be at most MAX_NEAR_DISTANCE. -/
def isNearIdentical (env : Env) (baseTag candidate : String) : Bool :=
  match env.tagDistance baseTag candidate with
  | .error _ => false
  | .ok forward =>
    match env.tagDistance candidate baseTag with
    | .error _ => false
    | .ok backward =>
      decide (forward ≤ MAX_NEAR_DISTANCE) && decide (backward ≤ MAX_NEAR_DISTANCE)

/-- One step of the inner add loop: `if candidate and candidate not in seen`.
The seen set always holds exactly the elements of tags, so membership in tags
stands in for membership in seen. -/
def addCandidate (tags : List String) (c : String) : List String :=
  if c = "" then tags
  else if c ∈ tags then tags
  else tags ++ [c]

/-- Embeds one iteration of add (source lines 58-66): raw is the tag text,
tag its standardized form (None on failure); the pair (tag, raw) is pushed
in that order, skipping falsy and already-seen entries. -/
def addVal (env : Env) (tags : List String) (v : LangOrStr) : List String :=
  let raw := asTagStr env v
  let t1 := match toStandardTag env v with
    | some t => addCandidate tags t
    | none => tags
  addCandidate t1 raw

/-- add over a list of values (the loop of source line 59). -/
def addMany (env : Env) (tags : List String) (vs : List LangOrStr) : List String :=
  vs.foldl (addVal env) tags

/-- `if x: add([x])` for a str-or-None x. -/
def addIfTruthy (env : Env) (tags : List String) (o : Option String) : List String :=
  match optNonEmpty o with
  | some s => addVal env tags (.inr s)
  | none => tags

/-- An alpha-3 getter wrapped in try/except: code is None when the lookup
raises (source lines 154-159). -/
def alphaLookup (r : Except Err (Option String)) : Option String :=
  match r with
  | .ok o => o
  | .error _ => none

/-- Embeds the component assembly for the maximized form (source lines
86-118).  The getattr chain over ("variants", "variant") contributes exactly
the truthy entries of the variants tuple, since Language has no variant
attribute. -/
def components (m : Language) : List String :=
  let base := optNonEmpty m.language
  let script := optNonEmpty m.script
  let territory := optNonEmpty m.territory
  let variants := m.variants.filter (fun v => v != "")
  match base with
  | none => []
  | some b =>
    ([b]
      ++ (match script with | some s => [b ++ "-" ++ s] | none => [])
      ++ (match territory with | some t => [b ++ "-" ++ t] | none => [])
      ++ (match script, territory with
          | some s, some t => [b ++ "-" ++ s ++ "-" ++ t]
          | _, _ => []))
    ++ variants.flatMap (fun v =>
      [b ++ "-" ++ v]
      ++ (match script with | some s => [b ++ "-" ++ s ++ "-" ++ v] | none => [])
      ++ (match territory with | some t => [b ++ "-" ++ t ++ "-" ++ v] | none => [])
      ++ (match script, territory with
          | some s, some t => [b ++ "-" ++ s ++ "-" ++ t ++ "-" ++ v]
          | _, _ => []))

/-- Embeds the macrolanguage / replacement / alpha-3 block of
_collect_related_codes (source lines 120-161), run when base_language is
truthy.  The two LANGUAGE_REPLACEMENTS comprehensions in the source iterate
the same dict with different binder names and collect the same keys; both
adds are kept. -/
def collectMacro (env : Env) (tags0 : List String) (bl : String) : List String :=
  let t1 := addMany env tags0
    ((env.macrolanguages.filter (fun p => p.2 == bl)).map (fun p => Sum.inr p.1))
  let t2 := addIfTruthy env t1 (dictGet env.macrolanguages bl)
  let t3 := addMany env t2
    ((env.normalizedMacrolanguages.filter (fun p => p.2 == bl)).map (fun p => Sum.inr p.1))
  let t4 := addIfTruthy env t3 (dictGet env.normalizedMacrolanguages bl)
  let t5 := addMany env t4
    ((env.languageReplacements.filter (fun p => p.2 == bl)).map (fun p => Sum.inr p.1))
  let t6 := addMany env t5
    ((env.languageReplacements.filter (fun p => p.2 == bl)).map (fun p => Sum.inr p.1))
  let t7 := addIfTruthy env t6 (alphaLookup (env.languageAlpha3 bl))
  addIfTruthy env t7 (alphaLookup (env.languageAlpha3Biblio bl))

/-- `if minimized: add([minimized])` (source lines 74-75): the minimized
Language is always truthy when present. -/
def addIfLang (env : Env) (tags : List String) (o : Option Language) : List String :=
  match o with
  | some m => addVal env tags (.inl m)
  | none => tags

/-- The `if maximized:` block (source lines 83-118): add the maximized form
and then every assembled component string. -/
def addMaximized (env : Env) (tags : List String) (o : Option Language) : List String :=
  match o with
  | some m => addMany env (addVal env tags (.inl m)) ((components m).map Sum.inr)
  | none => tags

/-- Embeds the collection phase of _collect_related_codes (source lines
55-161): the tags list after every add call, before filtering.  maximizedArg
is the function's maximized parameter (recomputed via maximize inside a
try/except when None, source lines 77-81). -/
def collectedTags (env : Env) (lang : Language) (maximizedArg : Option Language) : List String :=
  let maximized := match maximizedArg with
    | some m => some m
    | none => exceptToOption (env.maximize lang)
  let t2 := addMaximized env
    (addIfLang env (addVal env [] (.inl lang)) (exceptToOption (env.minimize lang)))
    maximized
  match optNonEmpty lang.language with
  | some bl => collectMacro env t2 bl
  | none => t2

/-- primary = _to_standard_tag(lang) (source line 163). -/
def primaryOf (env : Env) (lang : Language) : Option String :=
  toStandardTag env (.inl lang)

/-- reference = base_tag or primary or lang.to_tag() (source line 164). -/
def referenceOf (env : Env) (lang : Language) (baseTag : Option String) : String :=
  pyOrS baseTag (pyOrS (primaryOf env lang) (env.toTag lang))

/-- The US-territory exclusion test of the filtering loop (source lines
173-183): parse the candidate inside try/except (None on failure, in which
case the condition is vacuously false), then check
(territory or "").upper() == "US" and (language or "").lower() outside the
allowlist. -/
def usExcluded (env : Env) (c : String) : Bool :=
  match exceptToOption (env.getLang c) with
  | some l =>
    (pyUpper (pyOrS l.territory "") == "US")
      && !(US_TERRITORY_LANG_ALLOWLIST.contains (pyLower (pyOrS l.language "")))
  | none => false

/-- The per-candidate test of the filtering loop (source lines 170-185):
skip falsy candidates and the primary; skip candidates hit by the
US-territory exclusion; finally require near-identity to the reference. -/
def keepCandidate (env : Env) (primary : Option String) (reference : String)
    (c : String) : Bool :=
  if c = "" then false
  else if primary = some c then false
  else if usExcluded env c then false
  else isNearIdentical env reference c

/-- Embeds _collect_related_codes (source lines 48-186): collect, then either
return everything truthy and non-primary when the reference is falsy (source
lines 166-167), or run the US-territory and near-identity filters. -/
def collectRelated (env : Env) (lang : Language) (maximizedArg : Option Language)
    (baseTag : Option String) : List String :=
  let tags := collectedTags env lang maximizedArg
  let primary := primaryOf env lang
  let reference := referenceOf env lang baseTag
  if reference = "" then
    tags.filter (fun t => decide (t ≠ "" ∧ primary ≠ some t))
  else
    tags.filter (keepCandidate env primary reference)

/-! ### CLI entry point (main, source lines 189-242) -/

/-- How an invocation of main terminates: a normal return with an exit code,
or a SystemExit raised by argparse (help or usage error) that propagates past
the except-Exception handler. -/
inductive ExitKind where
  | ret (code : Nat)
  | sysExit (code : Nat)
deriving DecidableEq, Repr

/-- Observable outcome of main: termination kind plus the lines written to
standard output and standard error. -/
structure MainResult where
  exit : ExitKind
  out : List String
  err : List String
deriving DecidableEq, Repr

/-- Result of argparse on the script's parser (one required multi-word
positional, a simple flag written -s or --simple, and the default help
flag). -/
inductive ParseOutcome where
  | parsed (query : List String) (simple : Bool)
  | usageError
  | helpRequested
deriving DecidableEq, Repr

/-- Does argparse read this token as an option string? (starts with the
prefix char; a lone dash counts as positional). -/
def looksLikeOption (t : String) : Bool :=
  match t.data with
  | [] => false
  | c :: rest => c == '-' && !rest.isEmpty

/-- Model of parser.parse_args for this parser: left-to-right scan; -s and
--simple set the flag, -h and --help exit printing help, an unrecognized
option is a usage error (exit 2), a bare -- ends option scanning, and a
missing positional is a usage error. -/
def parseArgsLoop : List String → List String → Bool → ParseOutcome
  | [], acc, simple =>
    if acc.isEmpty then .usageError else .parsed acc.reverse simple
  | t :: rest, acc, simple =>
    if t = "-s" ∨ t = "--simple" then parseArgsLoop rest acc true
    else if t = "-h" ∨ t = "--help" then .helpRequested
    else if t = "--" then
      (if (acc.reverse ++ rest).isEmpty then .usageError
       else .parsed (acc.reverse ++ rest) simple)
    else if looksLikeOption t then .usageError
    else parseArgsLoop rest (t :: acc) simple

/-- The `" ".join(args.query)` step. -/
def joinSpace : List String → String
  | [] => ""
  | [q] => q
  | q :: rest => q ++ " " ++ joinSpace rest

/-- An exception caught by the entry point's catch-all: message to stderr,
return 1, keeping whatever stdout was already written (source lines
240-242). -/
def caughtResult (outSoFar : List String) (e : Err) : MainResult :=
  ⟨.ret 1, outSoFar, ["langcodes: " ++ e]⟩

/-- Embeds the full-output path of main after lang is resolved (source lines
216-239): tag, name, likely script, then the related-code listing whose
display names fall back to Unknown when lookup fails. -/
def resolveFull (env : Env) (lang : Language) (query : String) : MainResult :=
  let tag := pyOrS (toStandardTag env (.inl lang)) query
  match env.describe lang with
  | .error e => caughtResult [] e
  | .ok description =>
    let maximized := exceptToOption (env.maximize lang)
    let likelyScript := match maximized with
      | some m => pyOrS m.script "Unknown"
      | none => "Unknown"
    let headerOut := ["Tag: " ++ tag, "Name: " ++ description,
      "Likely script: " ++ likelyScript]
    let related := collectRelated env lang maximized (some tag)
    let relatedOut := if related.isEmpty then [] else
      "Identical or near-identical codes:" ::
        related.map (fun code =>
          let dn := match env.getLang code with
            | .ok l =>
              (match env.displayName l with
               | .ok n => n
               | .error _ => "Unknown")
            | .error _ => "Unknown"
          "  - " ++ code ++ ": " ++ dn)
    ⟨.ret 0, headerOut ++ relatedOut, []⟩

/-- Embeds main (source lines 189-242): argparse, the empty-query
parser.error, tag_is_valid dispatch, the simple branches, and the catch-all
that maps any exception to exit code 1 with the message on stderr.
standardize_tag(lang) on a Language argument is standardize_tag of its tag
text. -/
def mainRun (env : Env) (argv : List String) : MainResult :=
  match parseArgsLoop argv [] false with
  | .usageError => ⟨.sysExit 2, [], ["usage: expected a non-empty query"]⟩
  | .helpRequested => ⟨.sysExit 0, ["help"], []⟩
  | .parsed qs simple =>
    let query := pyStrip (joinSpace qs)
    if query = "" then ⟨.sysExit 2, [], ["usage: expected a non-empty query"]⟩
    else if env.tagIsValid query then
      match env.getLang query with
      | .error e => caughtResult [] e
      | .ok lang =>
        if simple then
          match env.displayName lang with
          | .error e => caughtResult [] e
          | .ok dn => ⟨.ret 0, [dn], []⟩
        else resolveFull env lang query
    else
      match env.find query with
      | .error e => caughtResult [] e
      | .ok lang =>
        if simple then
          match env.standardize (env.toTag lang) with
          | .error e => caughtResult [] e
          | .ok st =>
            match env.describe lang with
            | .error e => caughtResult [] e
            | .ok d => ⟨.ret 0, [st ++ ": " ++ d], []⟩
        else resolveFull env lang query

/-! ### Concrete environments used by witnesses and counterexamples -/

/-- A well-behaved model library: tags standardize to themselves, zh is near
every tag, cmn is a macrolanguage member of zh, and fr-US parses to a
US-territory French tag. -/
def envW : Env where
  toTag := fun l => pyOrS l.language "und"
  standardize := fun s => .ok s
  tagDistance := fun a b => .ok (if a = b ∨ a = "zh" ∨ b = "zh" then 0 else 100)
  getLang := fun s =>
    .ok (if s = "fr-US" then ⟨some "fr", none, some "US", []⟩
         else ⟨some s, none, none, []⟩)
  minimize := fun l => .ok l
  maximize := fun l => .ok l
  find := fun _ => .ok ⟨some "und", none, none, []⟩
  describe := fun _ => .ok "Chinese"
  displayName := fun _ => .ok "Chinese"
  tagIsValid := fun _ => true
  macrolanguages := [("cmn", "zh"), ("fr-US", "zh")]
  normalizedMacrolanguages := []
  languageReplacements := []
  languageAlpha3 := fun _ => .ok none
  languageAlpha3Biblio := fun _ => .ok none

/-- The zh input Language used with the concrete environments. -/
def langZh : Language := ⟨some "zh", none, none, []⟩

/-- A model library in which standardize_tag and tag_distance always raise. -/
def envD : Env where
  toTag := fun l => pyOrS l.language "und"
  standardize := fun _ => .error "standardize failure"
  tagDistance := fun _ _ => .error "distance failure"
  getLang := fun s => .ok ⟨some s, none, none, []⟩
  minimize := fun l => .ok l
  maximize := fun l => .ok l
  find := fun _ => .ok ⟨some "und", none, none, []⟩
  describe := fun _ => .ok "d"
  displayName := fun _ => .ok "n"
  tagIsValid := fun _ => true
  macrolanguages := [("cmn", "zh")]
  normalizedMacrolanguages := []
  languageReplacements := []
  languageAlpha3 := fun _ => .ok none
  languageAlpha3Biblio := fun _ => .ok none

/-- A model library in which Language.get raises on the candidate qq-US,
a macrolanguage member of zh whose text denotes a US-territory tag, and all
distances are zero. -/
def envF : Env where
  toTag := fun l => pyOrS l.language "und"
  standardize := fun s => .ok s
  tagDistance := fun _ _ => .ok 0
  getLang := fun s =>
    if s = "qq-US" then .error "parse failure"
    else .ok ⟨some s, none, none, []⟩
  minimize := fun l => .ok l
  maximize := fun l => .ok l
  find := fun _ => .ok ⟨some "und", none, none, []⟩
  describe := fun _ => .ok "d"
  displayName := fun _ => .ok "n"
  tagIsValid := fun _ => true
  macrolanguages := [("qq-US", "zh")]
  normalizedMacrolanguages := []
  languageReplacements := []
  languageAlpha3 := fun _ => .ok none
  languageAlpha3Biblio := fun _ => .ok none

/-- A model library whose to_tag is empty, so the computed reference tag is
falsy; aa-US parses to a US-territory tag outside the allowlist and every
distance is far above the threshold. -/
def envE : Env where
  toTag := fun _ => ""
  standardize := fun s => .ok s
  tagDistance := fun _ _ => .ok 100
  getLang := fun s =>
    if s = "aa-US" then .ok ⟨some "aa", none, some "US", []⟩
    else .ok ⟨some s, none, none, []⟩
  minimize := fun l => .ok l
  maximize := fun l => .ok l
  find := fun _ => .ok ⟨some "und", none, none, []⟩
  describe := fun _ => .ok "d"
  displayName := fun _ => .ok "n"
  tagIsValid := fun _ => true
  macrolanguages := [("aa-US", "xx")]
  normalizedMacrolanguages := []
  languageReplacements := []
  languageAlpha3 := fun _ => .ok none
  languageAlpha3Biblio := fun _ => .ok none

/-- The xx input Language used with envE. -/
def langXx : Language := ⟨some "xx", none, none, []⟩

/-! ### Helper lemmas -/

lemma pyOrS_ne_empty (a : Option String) {b : String} (hb : b ≠ "") :
    pyOrS a b ≠ "" := by
  unfold pyOrS optNonEmpty
  cases a with
  | none => exact hb
  | some s =>
    by_cases hs : s = ""
    · simp [hs]
      exact hb
    · simp [hs]

lemma referenceOf_ne_empty (env : Env) (lang : Language) (bt : Option String)
    (h : env.toTag lang ≠ "") : referenceOf env lang bt ≠ "" := by
  unfold referenceOf
  exact pyOrS_ne_empty _ (pyOrS_ne_empty _ h)

lemma addCandidate_nodup {l : List String} (c : String) (h : l.Nodup) :
    (addCandidate l c).Nodup := by
  unfold addCandidate
  by_cases h1 : c = ""
  · simpa [h1] using h
  · by_cases h2 : c ∈ l
    · simpa [h1, h2] using h
    · simp [h1, h2, List.nodup_append, h, h2]

lemma addVal_nodup (env : Env) {l : List String} (v : LangOrStr) (h : l.Nodup) :
    (addVal env l v).Nodup := by
  unfold addVal
  cases htag : toStandardTag env v with
  | none => simpa [htag] using addCandidate_nodup _ h
  | some t => simpa [htag] using addCandidate_nodup _ (addCandidate_nodup _ h)

lemma addMany_nodup (env : Env) {l : List String} (vs : List LangOrStr)
    (h : l.Nodup) : (addMany env l vs).Nodup := by
  induction vs generalizing l with
  | nil => exact h
  | cons v vs ih => exact ih (addVal_nodup env v h)

lemma addIfTruthy_nodup (env : Env) {l : List String} (o : Option String)
    (h : l.Nodup) : (addIfTruthy env l o).Nodup := by
  unfold addIfTruthy
  cases ht : optNonEmpty o with
  | none => simpa [ht] using h
  | some s => simpa [ht] using addVal_nodup env _ h

lemma collectMacro_nodup (env : Env) {l : List String} (bl : String)
    (h : l.Nodup) : (collectMacro env l bl).Nodup := by
  unfold collectMacro
  exact addIfTruthy_nodup env _ (addIfTruthy_nodup env _ (addMany_nodup env _
    (addMany_nodup env _ (addIfTruthy_nodup env _ (addMany_nodup env _
      (addIfTruthy_nodup env _ (addMany_nodup env _ h)))))))

lemma addIfLang_nodup (env : Env) {l : List String} (o : Option Language)
    (h : l.Nodup) : (addIfLang env l o).Nodup := by
  unfold addIfLang
  cases o with
  | none => exact h
  | some m => exact addVal_nodup env _ h

lemma addMaximized_nodup (env : Env) {l : List String} (o : Option Language)
    (h : l.Nodup) : (addMaximized env l o).Nodup := by
  unfold addMaximized
  cases o with
  | none => exact h
  | some m => exact addMany_nodup env _ (addVal_nodup env _ h)

lemma collectedTags_nodup (env : Env) (lang : Language)
    (m : Option Language) : (collectedTags env lang m).Nodup := by
  unfold collectedTags
  have h2 := addMaximized_nodup env
    (match m with
      | some mm => some mm
      | none => exceptToOption (env.maximize lang))
    (addIfLang_nodup env (exceptToOption (env.minimize lang))
      (addVal_nodup env (.inl lang) List.nodup_nil))
  cases hbl : optNonEmpty lang.language with
  | none => simpa [hbl] using h2
  | some bl => simpa [hbl] using collectMacro_nodup env bl h2

lemma isNearIdentical_true_iff (env : Env) (a b : String) :
    isNearIdentical env a b = true ↔
      ∃ f bd : Int, env.tagDistance a b = .ok f ∧ env.tagDistance b a = .ok bd ∧
        f ≤ MAX_NEAR_DISTANCE ∧ bd ≤ MAX_NEAR_DISTANCE := by
  unfold isNearIdentical
  cases hf : env.tagDistance a b with
  | error e => simp [hf]
  | ok f =>
    cases hb : env.tagDistance b a with
    | error e => simp [hb]
    | ok bd => simp [hf, hb]

lemma keepCandidate_true_iff (env : Env) (primary : Option String)
    (reference c : String) :
    keepCandidate env primary reference c = true ↔
      c ≠ "" ∧ primary ≠ some c ∧ usExcluded env c = false ∧
        isNearIdentical env reference c = true := by
  unfold keepCandidate
  by_cases h1 : c = ""
  · simp [h1]
  · by_cases h2 : primary = some c
    · simp [h1, h2]
    · by_cases h3 : usExcluded env c
      · simp [h1, h2, h3]
      · simp [h1, h2, h3]

lemma mem_collectRelated_of_ref_ne {env : Env} {lang : Language}
    {m : Option Language} {bt : Option String} {c : String}
    (h : referenceOf env lang bt ≠ "") :
    c ∈ collectRelated env lang m bt ↔
      c ∈ collectedTags env lang m ∧
        keepCandidate env (primaryOf env lang) (referenceOf env lang bt) c = true := by
  unfold collectRelated
  simp [h, List.mem_filter]

/-! ### Claim theorems -/

/-- Claim C1: for every Language input, the list returned by
_collect_related_codes never contains the primary tag itself (the
standardized tag of the input language). -/
theorem related_codes_exclude_primary (env : Env) (lang : Language)
    (m : Option Language) (bt : Option String) (p : String)
    (hp : primaryOf env lang = some p) :
    p ∉ collectRelated env lang m bt := by
  intro hmem
  by_cases h : referenceOf env lang bt = ""
  · unfold collectRelated at hmem
    simp [h, List.mem_filter] at hmem
    exact hmem.2.2 hp
  · rw [mem_collectRelated_of_ref_ne h] at hmem
    have hk := hmem.2
    rw [keepCandidate_true_iff] at hk
    exact hk.2.1 hp

/-- Witness for C1: in the concrete model envW the standardized primary is
zh and zh is absent from the related list. -/
theorem related_codes_exclude_primary_witness :
    primaryOf envW langZh = some "zh" ∧
      "zh" ∉ collectRelated envW langZh none none :=
  ⟨by decide, related_codes_exclude_primary envW langZh none none "zh" (by decide)⟩

/-- Claim C2: for every input with a usable (nonempty) reference tag, every
candidate included by _collect_related_codes has tag_distance at most
MAX_NEAR_DISTANCE in both directions, both calls succeeding. -/
theorem related_codes_within_distance (env : Env) (lang : Language)
    (m : Option Language) (bt : Option String) (c : String)
    (href : referenceOf env lang bt ≠ "")
    (hc : c ∈ collectRelated env lang m bt) :
    ∃ f b : Int,
      env.tagDistance (referenceOf env lang bt) c = .ok f ∧
        env.tagDistance c (referenceOf env lang bt) = .ok b ∧
        f ≤ MAX_NEAR_DISTANCE ∧ b ≤ MAX_NEAR_DISTANCE := by
  rw [mem_collectRelated_of_ref_ne href] at hc
  have hk := hc.2
  rw [keepCandidate_true_iff] at hk
  exact (isNearIdentical_true_iff env _ c).mp hk.2.2.2

/-- Witness for C2: in envW the candidate cmn is included and both distances
to the reference zh are zero. -/
theorem related_codes_within_distance_witness :
    "cmn" ∈ collectRelated envW langZh none none ∧
      ∃ f b : Int,
        envW.tagDistance (referenceOf envW langZh none) "cmn" = .ok f ∧
          envW.tagDistance "cmn" (referenceOf envW langZh none) = .ok b ∧
          f ≤ MAX_NEAR_DISTANCE ∧ b ≤ MAX_NEAR_DISTANCE :=
  ⟨by decide,
    related_codes_within_distance envW langZh none none "cmn" (by decide) (by decide)⟩

/-- Claim C3: provided to_tag of the input is nonempty (an invariant of the
real library, which makes the reference tag usable), the related list
contains no parsed tag with territory US whose language is outside the
allowlist: any included candidate that parses with territory US has its
language in US_TERRITORY_LANG_ALLOWLIST. -/
theorem related_codes_exclude_us_territory (env : Env) (lang : Language)
    (m : Option Language) (bt : Option String) (c : String)
    (htag : env.toTag lang ≠ "")
    (hc : c ∈ collectRelated env lang m bt) :
    ∀ l : Language, env.getLang c = .ok l →
      pyUpper (pyOrS l.territory "") = "US" →
      pyLower (pyOrS l.language "") ∈ US_TERRITORY_LANG_ALLOWLIST := by
  intro l hl hus
  have href := referenceOf_ne_empty env lang bt htag
  rw [mem_collectRelated_of_ref_ne href] at hc
  have hk := hc.2
  rw [keepCandidate_true_iff] at hk
  have hex := hk.2.2.1
  unfold usExcluded exceptToOption at hex
  rw [hl] at hex
  simp [hus] at hex
  simpa using hex

/-- Witness for C3: in envW to_tag is nonempty, the US-territory candidate
fr-US is dropped, and the included candidate cmn satisfies the conclusion. -/
theorem related_codes_exclude_us_territory_witness :
    envW.toTag langZh ≠ "" ∧
      "fr-US" ∉ collectRelated envW langZh none none ∧
      (∀ l : Language, envW.getLang "cmn" = .ok l →
        pyUpper (pyOrS l.territory "") = "US" →
        pyLower (pyOrS l.language "") ∈ US_TERRITORY_LANG_ALLOWLIST) :=
  ⟨by decide, by decide,
    related_codes_exclude_us_territory envW langZh none none "cmn"
      (by decide) (by decide)⟩

/-- Claim C5 (amended): library failures inside _collect_related_codes are
caught per call and never propagated; in particular a tag_distance failure
against the reference makes the near-identity test false, so that candidate
is excluded from the result.  (A Language.get failure, by contrast, does not
exclude the candidate: see the counterexample and C8.) -/
theorem distance_failure_skips_candidate (env : Env) (lang : Language)
    (m : Option Language) (bt : Option String) (c : String)
    (href : referenceOf env lang bt ≠ "")
    (herr : ∃ e, env.tagDistance (referenceOf env lang bt) c = .error e) :
    c ∉ collectRelated env lang m bt := by
  intro hmem
  rw [mem_collectRelated_of_ref_ne href] at hmem
  have hk := hmem.2
  rw [keepCandidate_true_iff] at hk
  obtain ⟨e, he⟩ := herr
  have hnear := hk.2.2.2
  unfold isNearIdentical at hnear
  rw [he] at hnear
  exact Bool.false_ne_true hnear

/-- Counterexample for C5 as stated: in envF the lookup Language.get fails
on the candidate qq-US, yet qq-US is not skipped - it appears in the related
list. -/
theorem getlang_failure_candidate_not_skipped :
    (∃ e, envF.getLang "qq-US" = Except.error e) ∧
      "qq-US" ∈ collectRelated envF langZh none none :=
  ⟨⟨"parse failure", rfl⟩, by decide⟩

/-- Witness for the amended C5: in envD every tag_distance call fails and
the collected candidate cmn is excluded. -/
theorem distance_failure_skips_candidate_witness :
    referenceOf envD langZh none ≠ "" ∧
      (∃ e, envD.tagDistance (referenceOf envD langZh none) "cmn" = .error e) ∧
      "cmn" ∉ collectRelated envD langZh none none :=
  ⟨by decide, ⟨"distance failure", rfl⟩,
    distance_failure_skips_candidate envD langZh none none "cmn" (by decide)
      ⟨"distance failure", rfl⟩⟩

/-- Claim C7: the related list is deduplicated and keeps the insertion order
of first discovery: it is a duplicate-free sublist of the collected tags in
collection order. -/
theorem related_codes_deduplicated (env : Env) (lang : Language)
    (m : Option Language) (bt : Option String) :
    (collectRelated env lang m bt).Nodup ∧
      List.Sublist (collectRelated env lang m bt) (collectedTags env lang m) := by
  unfold collectRelated
  by_cases h : referenceOf env lang bt = "" <;>
    simp [h] <;>
    exact List.Nodup.filter _ (collectedTags_nodup env lang m)

/-- Claim C8: when Language.get fails on a collected candidate, the
US-territory exclusion cannot apply: the candidate is included whenever it
is truthy, differs from the primary, and passes the near-identity filter. -/
theorem getlang_failure_bypasses_us_filter (env : Env) (lang : Language)
    (m : Option Language) (bt : Option String) (c : String)
    (href : referenceOf env lang bt ≠ "")
    (hmem : c ∈ collectedTags env lang m)
    (hc : c ≠ "") (hp : primaryOf env lang ≠ some c)
    (hget : ∃ e, env.getLang c = .error e)
    (hnear : isNearIdentical env (referenceOf env lang bt) c = true) :
    c ∈ collectRelated env lang m bt := by
  rw [mem_collectRelated_of_ref_ne href]
  refine ⟨hmem, ?_⟩
  rw [keepCandidate_true_iff]
  refine ⟨hc, hp, ?_, hnear⟩
  obtain ⟨e, he⟩ := hget
  simp [usExcluded, exceptToOption, he]

/-- Witness for C8: in envF the candidate qq-US fails to parse, denotes a
US-territory tag for a language outside the allowlist, and is nevertheless
included. -/
theorem getlang_failure_bypasses_us_filter_witness :
    (∃ e, envF.getLang "qq-US" = Except.error e) ∧
      "qq-US" ∈ collectRelated envF langZh none none :=
  ⟨⟨"parse failure", rfl⟩,
    getlang_failure_bypasses_us_filter envF langZh none none "qq-US"
      (by decide) (by decide) (by decide) (by decide)
      ⟨"parse failure", rfl⟩ (by decide)⟩

/-- Claim C9: when the computed reference tag is empty, both the US-territory
filter and the distance filter are skipped: membership in the result is
exactly membership in the collected tags, minus falsy entries and the
primary. -/
theorem empty_reference_skips_filters (env : Env) (lang : Language)
    (m : Option Language) (bt : Option String)
    (h : referenceOf env lang bt = "") (c : String) :
    c ∈ collectRelated env lang m bt ↔
      c ∈ collectedTags env lang m ∧ c ≠ "" ∧ primaryOf env lang ≠ some c := by
  unfold collectRelated
  simp [h, List.mem_filter, and_assoc]

/-- Witness for C9: in envE the reference is empty and the far-away
US-territory candidate aa-US is returned unfiltered. -/
theorem empty_reference_skips_filters_witness :
    referenceOf envE langXx none = "" ∧
      "aa-US" ∈ collectRelated envE langXx none none :=
  ⟨by decide,
    (empty_reference_skips_filters envE langXx none none (by decide) "aa-US").mpr
      (by decide)⟩

/-- Claim C10: _to_standard_tag and _is_near_identical swallow library
failures: a standardize_tag failure yields None and a tag_distance failure
in either direction yields False, never an exception. -/
theorem helpers_swallow_failures (env : Env) (v : LangOrStr) (a b : String) :
    ((∃ e, env.standardize (asTagStr env v) = .error e) →
        toStandardTag env v = none) ∧
      ((∃ e, env.tagDistance a b = .error e) → isNearIdentical env a b = false) ∧
      ((∃ e, env.tagDistance b a = .error e) → isNearIdentical env a b = false) := by
  refine ⟨?_, ?_, ?_⟩
  · rintro ⟨e, he⟩
    unfold toStandardTag
    rw [he]
  · rintro ⟨e, he⟩
    unfold isNearIdentical
    rw [he]
  · rintro ⟨e, he⟩
    unfold isNearIdentical
    cases hf : env.tagDistance a b with
    | error e2 => rfl
    | ok f => rw [he]

/-- Witness for C10: in envD both library calls fail and the helpers return
their default values. -/
theorem helpers_swallow_failures_witness :
    toStandardTag envD (Sum.inr "en") = none ∧
      isNearIdentical envD "en" "fr" = false ∧
      (∃ e, envD.standardize (asTagStr envD (Sum.inr "en")) = .error e) ∧
      (∃ e, envD.tagDistance "en" "fr" = .error e) :=
  ⟨(helpers_swallow_failures envD (Sum.inr "en") "en" "fr").1
      ⟨"standardize failure", rfl⟩,
    (helpers_swallow_failures envD (Sum.inr "en") "en" "fr").2.1
      ⟨"distance failure", rfl⟩,
    ⟨"standardize failure", rfl⟩, ⟨"distance failure", rfl⟩⟩

lemma resolveFull_outcome (env : Env) (lang : Language) (q : String) :
    (resolveFull env lang q).exit = .ret 0 ∨
      ((resolveFull env lang q).exit = .ret 1 ∧
        ∃ msg, ("langcodes: " ++ msg) ∈ (resolveFull env lang q).err) := by
  unfold resolveFull
  cases hd : env.describe lang with
  | error e =>
    right
    refine ⟨by simp [hd, caughtResult], e, by simp [hd, caughtResult]⟩
  | ok d => left; simp [hd]

/-- Claim C6 (amended): main returns 0 on success, and returns 1 with the
exception message on standard error whenever a resolution exception is
caught; argument-parsing failures (missing or blank query, unknown options,
help) do not return but terminate through SystemExit with code 2 (or 0 for
help). -/
theorem main_exit_code_policy (env : Env) (argv : List String) :
    (mainRun env argv).exit = .sysExit 0 ∨
      (mainRun env argv).exit = .sysExit 2 ∨
      (mainRun env argv).exit = .ret 0 ∨
      ((mainRun env argv).exit = .ret 1 ∧
        ∃ msg, ("langcodes: " ++ msg) ∈ (mainRun env argv).err) := by
  unfold mainRun
  cases hp : parseArgsLoop argv [] false with
  | usageError => right; left; rfl
  | helpRequested => left; rfl
  | parsed qs simple =>
    by_cases hq : pyStrip (joinSpace qs) = ""
    · right; left; simp [hq]
    · by_cases hv : env.tagIsValid (pyStrip (joinSpace qs)) = true
      · simp only [hq, hv, if_false, if_true, if_neg, if_pos]
        cases hg : env.getLang (pyStrip (joinSpace qs)) with
        | error e =>
          right; right; right
          exact ⟨by simp [hq, hg, caughtResult], e, by simp [hq, hg, caughtResult]⟩
        | ok lang =>
          cases simple with
          | false =>
            rcases resolveFull_outcome env lang (pyStrip (joinSpace qs)) with h | h
            · right; right; left; simpa [hq, hg] using h
            · right; right; right
              exact ⟨by simpa [hq, hg] using h.1, by simpa [hq, hg] using h.2⟩
          | true =>
            cases hdn : env.displayName lang with
            | error e =>
              right; right; right
              exact ⟨by simp [hq, hg, hdn, caughtResult],
                e, by simp [hq, hg, hdn, caughtResult]⟩
            | ok dn => right; right; left; simp [hq, hg, hdn]
      · simp only [hq, hv, if_false, if_true, if_neg, if_pos]
        cases hf : env.find (pyStrip (joinSpace qs)) with
        | error e =>
          right; right; right
          exact ⟨by simp [hq, hv, hf, caughtResult],
            e, by simp [hq, hv, hf, caughtResult]⟩
        | ok lang =>
          cases simple with
          | false =>
            rcases resolveFull_outcome env lang (pyStrip (joinSpace qs)) with h | h
            · right; right; left; simpa [hq, hv, hf] using h
            · right; right; right
              exact ⟨by simpa [hq, hv, hf] using h.1, by simpa [hq, hv, hf] using h.2⟩
          | true =>
            cases hst : env.standardize (env.toTag lang) with
            | error e =>
              right; right; right
              exact ⟨by simp [hq, hv, hf, hst, caughtResult],
                e, by simp [hq, hv, hf, hst, caughtResult]⟩
            | ok st =>
              cases hd : env.describe lang with
              | error e =>
                right; right; right
                exact ⟨by simp [hq, hv, hf, hst, hd, caughtResult],
                  e, by simp [hq, hv, hf, hst, hd, caughtResult]⟩
              | ok d => right; right; left; simp [hq, hv, hf, hst, hd]

/-- Counterexample for C6 as stated: with no arguments argparse terminates
the process through SystemExit with code 2; main neither returns 0 nor
returns 1. -/
theorem main_no_args_exits_two :
    (mainRun envW []).exit = ExitKind.sysExit 2 ∧
      (mainRun envW []).exit ≠ ExitKind.ret 0 ∧
      (mainRun envW []).exit ≠ ExitKind.ret 1 := by
  refine ⟨rfl, ?_, ?_⟩ <;> decide

lemma parseArgsLoop_single {q : String} (hopt : looksLikeOption q = false) :
    parseArgsLoop [q] [] false = .parsed [q] false := by
  have h1 : ¬(q = "-s" ∨ q = "--simple") := by
    rintro (rfl | rfl) <;> exact absurd hopt (by decide)
  have h2 : ¬(q = "-h" ∨ q = "--help") := by
    rintro (rfl | rfl) <;> exact absurd hopt (by decide)
  have h3 : q ≠ "--" := by
    rintro rfl; exact absurd hopt (by decide)
  unfold parseArgsLoop
  rw [if_neg h1, if_neg h2, if_neg h3, if_neg (by simp [hopt])]
  unfold parseArgsLoop
  simp

/-- Claim C4: a query accepted by tag_is_valid is resolved through
Language.get and printed in standardized form as the first output line
(the Tag: result), in a plain (non-simple) invocation; the hypotheses state
that standardize_tag succeeds and agrees between the query and the parsed
Language, as in the real library. -/
theorem valid_tag_prints_standardized (env : Env) (q s d : String)
    (lang : Language)
    (hq : pyStrip q = q) (hne : q ≠ "") (hopt : looksLikeOption q = false)
    (hvalid : env.tagIsValid q = true)
    (hget : env.getLang q = .ok lang)
    (hdesc : env.describe lang = .ok d)
    (hstd : env.standardize (env.toTag lang) = .ok s)
    (hsne : s ≠ "")
    (hqs : env.standardize q = .ok s) :
    (mainRun env [q]).exit = .ret 0 ∧
      (mainRun env [q]).out.head? = some ("Tag: " ++ s) := by
  unfold mainRun
  rw [parseArgsLoop_single hopt]
  simp only [joinSpace, hq, hne, hvalid, if_true, if_false]
  rw [hget]
  show (resolveFull env lang q).exit = ExitKind.ret 0 ∧
    (resolveFull env lang q).out.head? = some ("Tag: " ++ s)
  have htag : pyOrS (toStandardTag env (Sum.inl lang)) q = s := by
    simp [toStandardTag, asTagStr, hstd, pyOrS, optNonEmpty, hsne]
  unfold resolveFull
  rw [htag, hdesc]
  simp

/-- Witness for C4: resolving the valid tag zh in envW returns 0 and prints
Tag: zh first. -/
theorem valid_tag_prints_standardized_witness :
    (mainRun envW ["zh"]).exit = .ret 0 ∧
      (mainRun envW ["zh"]).out.head? = some ("Tag: " ++ "zh") :=
  valid_tag_prints_standardized envW "zh" "zh" "Chinese" langZh
    (by decide) (by decide) (by decide) (by decide) rfl rfl rfl
    (by decide) rfl

end InspectLangcodes
